import Mathlib

/-!
Shallow embedding of `src/portainer-deploy.py` (class `PortainerSwarmDeployer`).

The script is a single linear run: parse the command line, validate the
environment variables, then perform a fixed sequence of blocking HTTP calls
against the Portainer control plane, ending in at most one mutating call
(create / update / delete).  We embed a run as a pure function of

  * the configuration (the five environment variables, each `Option String`
    because `os.getenv` returns `None` when unset),
  * the argument vector after the script name (`sys.argv[1:]`),
  * a `World` describing the control plane: the response each of the script's
    HTTP calls would receive, plus the parsed payloads the script extracts
    from successful responses (`jwt`, endpoint list, swarm id, stack list).

The run's observable behaviour is the list of HTTP requests issued, in order,
and an `Outcome` describing how the process terminates.
-/

/-- An HTTP response as the script observes it: `ok` is the outcome of
`response.raise_for_status()` (success status or not), `status` and `body` are
what the raised `HTTPError` carries along when `ok` is false. -/
structure HttpResp where
  ok : Bool
  status : Nat
  body : String
deriving Repr, DecidableEq

/-- The five environment variables read in `__init__` (src lines 41-45);
`os.getenv` yields `none` when the variable is unset and `some s` (possibly
the empty string) when it is set. -/
structure Config where
  portainer_url : Option String
  portainer_username : Option String
  portainer_password : Option String
  stack_name : Option String
  compose_content : Option String
deriving Repr, DecidableEq

/-- The control plane, seen as the responses it would give to each call the
script can make in one run.  `jwt`, `endpoints`, `swarmId` and `stacks` are
the values the script extracts from the corresponding successful response
bodies (`response.json()["jwt"]`, `response.json()` as a list of records with
an `Id` field, `response.json()["ID"]`, and the stack records with `Name` and
`Id` fields).  `mutResp` answers whichever single mutating call the run makes. -/
structure World where
  authResp : HttpResp
  jwt : String
  endpointsResp : HttpResp
  endpoints : List Nat
  swarmResp : HttpResp
  swarmId : String
  stacksResp : HttpResp
  stackList : List (String × Nat)
  mutResp : HttpResp
deriving Repr, DecidableEq

/-- Body of the `PUT /stacks/{id}` request in `update_stack` (src lines 144-151).
Field values are exactly the attributes the source serialises with
`json.dumps`; `Name` and `StackFileContent` are `Option String` because the
source passes `self.stack_name` / `self.compose_content` unchanged. -/
structure UpdatePayload where
  pName : Option String
  pSwarmID : String
  pStackFileContent : Option String
  pPrune : Bool
deriving Repr, DecidableEq

/-- Body of the `POST /stacks` request in `create_stack` (src lines 163-169). -/
structure CreatePayload where
  pName : Option String
  pStackFileContent : Option String
  pSwarmID : String
deriving Repr, DecidableEq

/-- One HTTP request issued by the script.  Each constructor records the data
the source puts in the URL, headers and body of the corresponding call:
`auth` is `POST /api/auth` (src lines 81-87), `listEndpoints` is
`GET /api/endpoints` (93-96), `swarmInfo` is
`GET /api/endpoints/{endpointId}/docker/swarm` (102-105), `listStacks` is
`GET /api/stacks?endpointId=...` (111-114), `deleteStack` is
`DELETE /api/stacks/{stackId}?endpointId=...` (125-128), `updateStack` is
`PUT /api/stacks/{stackId}?endpointId=...` (141-152), and `createStack` is
`POST /api/stacks?type=1&method=string&endpointId=...` (160-170), whose
`qType` and `qMethod` record the fixed `type=1` and `method=string` query
parameters of that URL. -/
inductive Req where
  | auth (username password : Option String)
  | listEndpoints (token : String)
  | swarmInfo (token : String) (endpointId : Nat)
  | listStacks (token : String) (endpointId : Nat)
  | deleteStack (token : String) (stackId endpointId : Nat)
  | updateStack (token : String) (stackId endpointId : Nat) (payload : UpdatePayload)
  | createStack (token : String) (endpointId : Nat) (qType : Nat) (qMethod : String)
      (payload : CreatePayload)
deriving Repr, DecidableEq

/-- How the process terminates.  `success` is exit code 0 (normal completion
of `deploy`, or the `sys.exit(0)` in `remove_stack`); `usageError` and
`configError` are the `sys.exit(1)` calls in argument and environment
validation; `httpError` is the uncaught `requests.HTTPError` raised by
`response.raise_for_status()`, carrying the response's status and body;
`stackNotDeployed` is the `sys.exit(1)` in `remove_stack` when the stack is
absent (src lines 132-136); `indexFault` is the uncaught `IndexError` from
`response.json()[0]` on an empty environment list (src line 98). -/
inductive Outcome where
  | success
  | usageError
  | configError (missing : String)
  | httpError (status : Nat) (body : String)
  | stackNotDeployed
  | indexFault
deriving Repr, DecidableEq

/-- Process exit code of each outcome: `sys.exit(0)` for success, `sys.exit(1)`
for the explicit fatal branches, and 1 for an uncaught Python exception. -/
def exitCode : Outcome → Nat
  | Outcome.success => 0
  | _ => 1

/-- True exactly on the transport-error outcome (an HTTP call returned a
non-success status). -/
def isTransportError : Outcome → Bool
  | Outcome.httpError _ _ => true
  | _ => false

/-- True on the four outcomes of the spec's defined error taxonomy: usage,
configuration, transport, and logical (removal of an absent stack).  The
out-of-range indexing fault is deliberately outside the taxonomy. -/
def inErrorTaxonomy : Outcome → Bool
  | Outcome.usageError => true
  | Outcome.configError _ => true
  | Outcome.httpError _ _ => true
  | Outcome.stackNotDeployed => true
  | _ => false

/-- True on the mutating requests: delete, update, create. -/
def isMutatingB : Req → Bool
  | Req.deleteStack _ _ _ => true
  | Req.updateStack _ _ _ _ => true
  | Req.createStack _ _ _ _ _ => true
  | _ => false

/-- The response the world gives to a request (the three mutating calls are
answered by `mutResp`: a run makes at most one of them). -/
def respOf (w : World) : Req → HttpResp
  | Req.auth _ _ => w.authResp
  | Req.listEndpoints _ => w.endpointsResp
  | Req.swarmInfo _ _ => w.swarmResp
  | Req.listStacks _ _ => w.stacksResp
  | Req.deleteStack _ _ _ => w.mutResp
  | Req.updateStack _ _ _ _ => w.mutResp
  | Req.createStack _ _ _ _ _ => w.mutResp

/-- The `self.parameters` set literal of `__init__` (src lines 34-40), as a
list in the order written.  Python iterates the set in an unspecified order;
the properties proved below do not depend on the order chosen here except for
which single missing variable is reported first. -/
def parameters : List String :=
  ["PORTAINER_URL", "PORTAINER_USERNAME", "PORTAINER_PASSWORD", "STACK_NAME",
   "COMPOSE_CONTENT"]

/-- The variables `validate_environment` iterates over: `self.parameters`,
with `COMPOSE_CONTENT` removed first when in remove mode (src lines 71-72). -/
def requiredParams (remove : Bool) : List String :=
  if remove then parameters.erase "COMPOSE_CONTENT" else parameters

/-- Embedding of `os.getenv` restricted to the five variables the script
reads: each name maps to the corresponding configuration field. -/
def getenv (cfg : Config) : String → Option String
  | "PORTAINER_URL" => cfg.portainer_url
  | "PORTAINER_USERNAME" => cfg.portainer_username
  | "PORTAINER_PASSWORD" => cfg.portainer_password
  | "STACK_NAME" => cfg.stack_name
  | "COMPOSE_CONTENT" => cfg.compose_content
  | _ => none

/-- Embedding of `validate_environment` (src lines 69-76): the loop tests
`os.getenv(var) is None` for each variable in turn and calls `sys.exit(1)`
inside the loop body at the first unset one, so the result is the first
variable (in iteration order) whose value is `none`, or `none` when all are
set.  Note the test is `is None` only: a variable set to the empty string
passes. -/
def validate_environment (cfg : Config) (remove : Bool) : Option String :=
  (requiredParams remove).find? (fun v => (getenv cfg v).isNone)

/-- The names the validation loop reports via `log.critical` before exiting:
because `sys.exit(1)` sits inside the loop body (src lines 75-76), exactly one
message is emitted when anything is missing — the first missing variable in
iteration order — never a full list. -/
def reportedMissing (cfg : Config) (remove : Bool) : List String :=
  match validate_environment cfg remove with
  | some v => [v]
  | none => []

/-- All required variables that are actually unset (for comparison with
`reportedMissing`, which never holds more than one of them). -/
def missingParams (cfg : Config) (remove : Bool) : List String :=
  (requiredParams remove).filter (fun v => (getenv cfg v).isNone)

/-- Embedding of the argument validation at the top of `deploy` (src lines
179-188), over `sys.argv[1:]`: more than one argument, or one argument other
than `--remove`, is a usage error (`none`); otherwise the result is the
remove flag. -/
def parseArgs : List String → Option Bool
  | [] => some false
  | [a] => if a = "--remove" then some true else none
  | _ :: _ :: _ => none

/-- Embedding of the dictionary comprehension in `get_stacks` (src line 116)
followed by the `in` / `[...]` lookup: the comprehension builds a dict keyed
by `Name`, so a duplicated name keeps the record inserted last; the key is
`self.stack_name`, an `Option String` that matches no key when it is `none`
(a `None` key never occurs in the str-keyed dict). -/
def stackLookup (sl : List (String × Nat)) (name : Option String) : Option Nat :=
  match sl with
  | [] => none
  | (n, i) :: rest =>
    match stackLookup rest name with
    | some j => some j
    | none => if some n = name then some i else none

/-- Embedding of `PortainerSwarmDeployer.deploy` (src lines 175-207) together
with the methods it calls.  The result is the ordered list of HTTP requests
issued and the process outcome.  Each early-exit branch lists its trace
explicitly: argument and environment validation issue no request;
`get_portainer_token` (78-89), `get_endpoint_id` (91-98), `get_swarm_id`
(100-107) and `get_stacks` (109-116) each issue one request and abort the run
via `raise_for_status` on a non-success status; `get_endpoint_id` then indexes
`response.json()[0]`, an `IndexError` on an empty list; finally the dispatch
(199-205) issues at most one mutating request and aborts on its failure. -/
def deploy (cfg : Config) (argv : List String) (w : World) : List Req × Outcome :=
  match parseArgs argv with
  | none => ([], Outcome.usageError)
  | some remove =>
    match validate_environment cfg remove with
    | some v => ([], Outcome.configError v)
    | none =>
      if w.authResp.ok then
        if w.endpointsResp.ok then
          match w.endpoints with
          | [] =>
            ([Req.auth cfg.portainer_username cfg.portainer_password,
              Req.listEndpoints w.jwt], Outcome.indexFault)
          | endpointId :: _ =>
            if w.swarmResp.ok then
              if w.stacksResp.ok then
                if remove then
                  match stackLookup w.stackList cfg.stack_name with
                  | some stackId =>
                    if w.mutResp.ok then
                      ([Req.auth cfg.portainer_username cfg.portainer_password,
                        Req.listEndpoints w.jwt,
                        Req.swarmInfo w.jwt endpointId,
                        Req.listStacks w.jwt endpointId,
                        Req.deleteStack w.jwt stackId endpointId], Outcome.success)
                    else
                      ([Req.auth cfg.portainer_username cfg.portainer_password,
                        Req.listEndpoints w.jwt,
                        Req.swarmInfo w.jwt endpointId,
                        Req.listStacks w.jwt endpointId,
                        Req.deleteStack w.jwt stackId endpointId],
                       Outcome.httpError w.mutResp.status w.mutResp.body)
                  | none =>
                    ([Req.auth cfg.portainer_username cfg.portainer_password,
                      Req.listEndpoints w.jwt,
                      Req.swarmInfo w.jwt endpointId,
                      Req.listStacks w.jwt endpointId], Outcome.stackNotDeployed)
                else
                  match stackLookup w.stackList cfg.stack_name with
                  | some stackId =>
                    if w.mutResp.ok then
                      ([Req.auth cfg.portainer_username cfg.portainer_password,
                        Req.listEndpoints w.jwt,
                        Req.swarmInfo w.jwt endpointId,
                        Req.listStacks w.jwt endpointId,
                        Req.updateStack w.jwt stackId endpointId
                          ⟨cfg.stack_name, w.swarmId, cfg.compose_content, true⟩],
                       Outcome.success)
                    else
                      ([Req.auth cfg.portainer_username cfg.portainer_password,
                        Req.listEndpoints w.jwt,
                        Req.swarmInfo w.jwt endpointId,
                        Req.listStacks w.jwt endpointId,
                        Req.updateStack w.jwt stackId endpointId
                          ⟨cfg.stack_name, w.swarmId, cfg.compose_content, true⟩],
                       Outcome.httpError w.mutResp.status w.mutResp.body)
                  | none =>
                    if w.mutResp.ok then
                      ([Req.auth cfg.portainer_username cfg.portainer_password,
                        Req.listEndpoints w.jwt,
                        Req.swarmInfo w.jwt endpointId,
                        Req.listStacks w.jwt endpointId,
                        Req.createStack w.jwt endpointId 1 "string"
                          ⟨cfg.stack_name, cfg.compose_content, w.swarmId⟩],
                       Outcome.success)
                    else
                      ([Req.auth cfg.portainer_username cfg.portainer_password,
                        Req.listEndpoints w.jwt,
                        Req.swarmInfo w.jwt endpointId,
                        Req.listStacks w.jwt endpointId,
                        Req.createStack w.jwt endpointId 1 "string"
                          ⟨cfg.stack_name, cfg.compose_content, w.swarmId⟩],
                       Outcome.httpError w.mutResp.status w.mutResp.body)
              else
                ([Req.auth cfg.portainer_username cfg.portainer_password,
                  Req.listEndpoints w.jwt,
                  Req.swarmInfo w.jwt endpointId,
                  Req.listStacks w.jwt endpointId],
                 Outcome.httpError w.stacksResp.status w.stacksResp.body)
            else
              ([Req.auth cfg.portainer_username cfg.portainer_password,
                Req.listEndpoints w.jwt,
                Req.swarmInfo w.jwt endpointId],
               Outcome.httpError w.swarmResp.status w.swarmResp.body)
        else
          ([Req.auth cfg.portainer_username cfg.portainer_password,
            Req.listEndpoints w.jwt],
           Outcome.httpError w.endpointsResp.status w.endpointsResp.body)
      else
        ([Req.auth cfg.portainer_username cfg.portainer_password],
         Outcome.httpError w.authResp.status w.authResp.body)

/-- A fully-set configuration used for concrete evaluations. -/
def cfgGood : Config :=
  ⟨some "https://portainer.example", some "admin", some "pw", some "mystack",
   some "version 3"⟩

/-- A configuration with two variables unset (URL and username). -/
def cfgTwoMissing : Config := ⟨none, none, some "pw", some "mystack", some "version 3"⟩

/-- A configuration whose stack name is set to the empty string. -/
def cfgEmptyName : Config :=
  ⟨some "https://portainer.example", some "admin", some "pw", some "",
   some "version 3"⟩

/-- A successful HTTP response. -/
def okResp : HttpResp := ⟨true, 200, "ok"⟩

/-- A failing HTTP response. -/
def errResp : HttpResp := ⟨false, 500, "boom"⟩

/-- A control plane on which every call succeeds, with one stack named
`mystack` deployed. -/
def wHappy : World :=
  ⟨okResp, "tok", okResp, [7, 9], okResp, "swarm1", okResp,
   [("mystack", 42), ("other", 5)], okResp⟩

/-- A control plane identical to `wHappy` except that `mystack` is absent. -/
def wAbsent : World :=
  ⟨okResp, "tok", okResp, [7, 9], okResp, "swarm1", okResp, [("other", 5)], okResp⟩

/-- A control plane whose authentication call fails. -/
def wAuthFail : World :=
  ⟨errResp, "tok", okResp, [7, 9], okResp, "swarm1", okResp,
   [("mystack", 42), ("other", 5)], okResp⟩

/-- A control plane with an empty environment list. -/
def wNoEndpoints : World :=
  ⟨okResp, "tok", okResp, [], okResp, "swarm1", okResp,
   [("mystack", 42), ("other", 5)], okResp⟩

example :
    (deploy cfgGood [] wHappy).1.filter isMutatingB =
      [Req.updateStack "tok" 42 7 ⟨some "mystack", "swarm1", some "version 3", true⟩] := by
  decide

example : (deploy cfgGood [] wAbsent).1.filter isMutatingB =
    [Req.createStack "tok" 7 1 "string" ⟨some "mystack", some "version 3", "swarm1"⟩] := by
  decide

example : deploy cfgGood ["--remove"] wHappy =
    ([Req.auth (some "admin") (some "pw"), Req.listEndpoints "tok",
      Req.swarmInfo "tok" 7, Req.listStacks "tok" 7, Req.deleteStack "tok" 42 7],
     Outcome.success) := by decide

example : deploy cfgGood ["--remove"] wAbsent =
    ([Req.auth (some "admin") (some "pw"), Req.listEndpoints "tok",
      Req.swarmInfo "tok" 7, Req.listStacks "tok" 7], Outcome.stackNotDeployed) := by
  decide

example : deploy cfgTwoMissing [] wHappy = ([], Outcome.configError "PORTAINER_URL") := by
  decide

example : deploy cfgGood ["x"] wHappy = ([], Outcome.usageError) := by decide

example : deploy cfgGood [] wNoEndpoints =
    ([Req.auth (some "admin") (some "pw"), Req.listEndpoints "tok"],
     Outcome.indexFault) := by decide

/-- Claim C1: in a non-remove run that reaches dispatch (all lookup calls
succeed, the environment list is nonempty) with the stack name present in the
name-to-id lookup, the mutating calls of the run are exactly one update,
whose payload carries the new stack content, the resolved swarm id, and the
prune flag set to true; no create or delete call is made. -/
theorem claim_C1_update_once (cfg : Config) (w : World) (sid eid : Nat)
    (rest : List Nat)
    (hval : validate_environment cfg false = none)
    (hauth : w.authResp.ok = true)
    (hend : w.endpointsResp.ok = true)
    (heps : w.endpoints = eid :: rest)
    (hsw : w.swarmResp.ok = true)
    (hst : w.stacksResp.ok = true)
    (hfound : stackLookup w.stackList cfg.stack_name = some sid) :
    (deploy cfg [] w).1.filter isMutatingB =
      [Req.updateStack w.jwt sid eid
        ⟨cfg.stack_name, w.swarmId, cfg.compose_content, true⟩] := by
  cases hm : w.mutResp.ok <;>
    simp [deploy, parseArgs, hval, hauth, hend, heps, hsw, hst, hfound, hm,
      isMutatingB]

/-- Witness for C1 at a concrete configuration and control plane. -/
theorem claim_C1_witness :
    (deploy cfgGood [] wHappy).1.filter isMutatingB =
      [Req.updateStack "tok" 42 7
        ⟨some "mystack", "swarm1", some "version 3", true⟩] :=
  claim_C1_update_once cfgGood wHappy 42 7 [9] rfl rfl rfl rfl rfl rfl rfl

/-- Claim C2: in a non-remove run that reaches dispatch with the stack name
absent from the name-to-id lookup, the mutating calls of the run are exactly
one create, whose payload carries the stack name, the stack content and the
resolved swarm id, and whose URL fixes `type=1` and `method=string`; no
delete or update call precedes it (none occurs at all). -/
theorem claim_C2_create_once (cfg : Config) (w : World) (eid : Nat)
    (rest : List Nat)
    (hval : validate_environment cfg false = none)
    (hauth : w.authResp.ok = true)
    (hend : w.endpointsResp.ok = true)
    (heps : w.endpoints = eid :: rest)
    (hsw : w.swarmResp.ok = true)
    (hst : w.stacksResp.ok = true)
    (habsent : stackLookup w.stackList cfg.stack_name = none) :
    (deploy cfg [] w).1.filter isMutatingB =
      [Req.createStack w.jwt eid 1 "string"
        ⟨cfg.stack_name, cfg.compose_content, w.swarmId⟩] := by
  cases hm : w.mutResp.ok <;>
    simp [deploy, parseArgs, hval, hauth, hend, heps, hsw, hst, habsent, hm,
      isMutatingB]

/-- Witness for C2 at a concrete configuration and control plane. -/
theorem claim_C2_witness :
    (deploy cfgGood [] wAbsent).1.filter isMutatingB =
      [Req.createStack "tok" 7 1 "string"
        ⟨some "mystack", some "version 3", "swarm1"⟩] :=
  claim_C2_create_once cfgGood wAbsent 7 [9] rfl rfl rfl rfl rfl rfl rfl

/-- Claim C4: any argument vector other than the empty one or exactly
`--remove` ends the run as a usage error with a non-zero exit code, with no
HTTP request issued and without consulting the configuration (the result is
the same for every configuration and control plane, so no validation and no
network activity happens first). -/
theorem claim_C4_usage_exits_first (cfg : Config) (w : World)
    (argv : List String)
    (h1 : argv ≠ []) (h2 : argv ≠ ["--remove"]) :
    deploy cfg argv w = ([], Outcome.usageError) ∧
    exitCode (deploy cfg argv w).2 = 1 := by
  have hp : parseArgs argv = none := by
    match argv with
    | [] => exact absurd rfl h1
    | [a] =>
      have ha : a ≠ "--remove" := by
        intro h
        exact h2 (by rw [h])
      simp [parseArgs, ha]
    | a :: b :: l => rfl
  constructor <;> simp [deploy, hp, exitCode]

/-- Witness for C4 at the concrete argument vector `["bogus"]`. -/
theorem claim_C4_witness :
    deploy cfgGood ["bogus"] wHappy = ([], Outcome.usageError) ∧
    exitCode (deploy cfgGood ["bogus"] wHappy).2 = 1 :=
  claim_C4_usage_exits_first cfgGood wHappy ["bogus"] (by decide) (by decide)

/-- Claim C7: when the authentication call returns a non-success status, the
run issues no further request of any kind — the trace is the single
authentication request — and terminates with the transport error and a
non-zero exit code. -/
theorem claim_C7_auth_failure_stops_run (cfg : Config) (w : World)
    (argv : List String) (remove : Bool)
    (hargs : parseArgs argv = some remove)
    (hval : validate_environment cfg remove = none)
    (hauth : w.authResp.ok = false) :
    deploy cfg argv w =
      ([Req.auth cfg.portainer_username cfg.portainer_password],
       Outcome.httpError w.authResp.status w.authResp.body) ∧
    exitCode (deploy cfg argv w).2 = 1 := by
  constructor <;> simp [deploy, hargs, hval, hauth, exitCode]

/-- Witness for C7 at a concrete control plane whose authentication fails. -/
theorem claim_C7_witness :
    deploy cfgGood [] wAuthFail =
      ([Req.auth (some "admin") (some "pw")], Outcome.httpError 500 "boom") ∧
    exitCode (deploy cfgGood [] wAuthFail).2 = 1 :=
  claim_C7_auth_failure_stops_run cfgGood wAuthFail [] false rfl rfl rfl

/-- Claim C3: in a remove-mode run that reaches dispatch, a delete call is
issued if and only if the stack name is present in the lookup.  When present,
the mutating calls are exactly one delete scoped to the matched stack id and
the resolved endpoint id, and a successful delete ends the run with exit code
0.  When absent, no mutating call is made, the outcome is the
stack-not-deployed logical error — an outcome distinct from the transport
error — and the exit code is non-zero. -/
theorem claim_C3_remove_iff_present (cfg : Config) (w : World) (eid : Nat)
    (rest : List Nat)
    (hval : validate_environment cfg true = none)
    (hauth : w.authResp.ok = true)
    (hend : w.endpointsResp.ok = true)
    (heps : w.endpoints = eid :: rest)
    (hsw : w.swarmResp.ok = true)
    (hst : w.stacksResp.ok = true) :
    (∀ sid, stackLookup w.stackList cfg.stack_name = some sid →
      (deploy cfg ["--remove"] w).1.filter isMutatingB =
        [Req.deleteStack w.jwt sid eid] ∧
      (w.mutResp.ok = true →
        (deploy cfg ["--remove"] w).2 = Outcome.success ∧
        exitCode (deploy cfg ["--remove"] w).2 = 0)) ∧
    (stackLookup w.stackList cfg.stack_name = none →
      (deploy cfg ["--remove"] w).1.filter isMutatingB = [] ∧
      (deploy cfg ["--remove"] w).2 = Outcome.stackNotDeployed ∧
      exitCode (deploy cfg ["--remove"] w).2 = 1 ∧
      isTransportError (deploy cfg ["--remove"] w).2 = false) := by
  constructor
  · intro sid hfound
    constructor
    · cases hm : w.mutResp.ok <;>
        simp [deploy, parseArgs, hval, hauth, hend, heps, hsw, hst, hfound,
          hm, isMutatingB]
    · intro hm
      constructor <;>
        simp [deploy, parseArgs, hval, hauth, hend, heps, hsw, hst, hfound,
          hm, exitCode]
  · intro habsent
    refine ⟨?_, ?_, ?_, ?_⟩ <;>
      simp [deploy, parseArgs, hval, hauth, hend, heps, hsw, hst, habsent,
        isMutatingB, exitCode, isTransportError]

/-- Witness for C3: on the concrete control plane both dispatch arms are
exercised — with the stack present the delete succeeds and exits 0, and with
it absent no delete is issued and the outcome is the logical error. -/
theorem claim_C3_witness :
    ((deploy cfgGood ["--remove"] wHappy).1.filter isMutatingB =
      [Req.deleteStack "tok" 42 7] ∧
     (deploy cfgGood ["--remove"] wHappy).2 = Outcome.success) ∧
    ((deploy cfgGood ["--remove"] wAbsent).1.filter isMutatingB = [] ∧
     (deploy cfgGood ["--remove"] wAbsent).2 = Outcome.stackNotDeployed) := by
  have hp := claim_C3_remove_iff_present cfgGood wHappy 7 [9]
    rfl rfl rfl rfl rfl rfl
  have ha := claim_C3_remove_iff_present cfgGood wAbsent 7 [9]
    rfl rfl rfl rfl rfl rfl
  exact ⟨⟨(hp.1 42 rfl).1, ((hp.1 42 rfl).2 rfl).1⟩,
         ⟨(ha.2 rfl).1, (ha.2 rfl).2.1⟩⟩

/-- Claim C5 counterexample: with both `PORTAINER_URL` and
`PORTAINER_USERNAME` unset, the validation loop reports only the first
missing variable it meets — not each missing setting — because `sys.exit(1)`
is inside the loop body; the run still exits as a configuration error with no
request issued. -/
theorem claim_C5_counterexample :
    missingParams cfgTwoMissing false = ["PORTAINER_URL", "PORTAINER_USERNAME"] ∧
    reportedMissing cfgTwoMissing false = ["PORTAINER_URL"] ∧
    (reportedMissing cfgTwoMissing false).contains "PORTAINER_USERNAME" = false ∧
    deploy cfgTwoMissing [] wHappy = ([], Outcome.configError "PORTAINER_URL") := by
  refine ⟨rfl, rfl, rfl, rfl⟩

/-- Claim C5 as amended: with any required setting missing, the run exits
non-zero as a configuration error without issuing any request, reporting the
first missing variable in iteration order — and only that one. -/
theorem claim_C5_first_missing_reported (cfg : Config) (w : World)
    (argv : List String) (remove : Bool) (v : String)
    (hargs : parseArgs argv = some remove)
    (hmiss : validate_environment cfg remove = some v) :
    deploy cfg argv w = ([], Outcome.configError v) ∧
    reportedMissing cfg remove = [v] ∧
    exitCode (Outcome.configError v) = 1 := by
  refine ⟨?_, ?_, rfl⟩
  · simp [deploy, hargs, hmiss]
  · simp [reportedMissing, hmiss]

/-- Witness for the amended C5 at a configuration with two unset variables. -/
theorem claim_C5_witness :
    deploy cfgTwoMissing ["--remove"] wHappy =
      ([], Outcome.configError "PORTAINER_URL") ∧
    reportedMissing cfgTwoMissing true = ["PORTAINER_URL"] ∧
    exitCode (Outcome.configError "PORTAINER_URL") = 1 :=
  claim_C5_first_missing_reported cfgTwoMissing wHappy ["--remove"] true
    "PORTAINER_URL" rfl rfl

/-- Claim C6 counterexample: with the stack name set to the empty string the
run does not exit as a configuration error — validation only tests
`os.getenv(var) is None` — and a network request (the authentication call) is
issued; here it fails, so the outcome is a transport error, not a
configuration one. -/
theorem claim_C6_counterexample :
    cfgEmptyName.stack_name = some "" ∧
    deploy cfgEmptyName [] wAuthFail =
      ([Req.auth (some "admin") (some "pw")], Outcome.httpError 500 "boom") := by
  refine ⟨rfl, by decide⟩

/-- Claim C6 as amended: a required variable set to the empty string is
treated as present — validation passes whenever every required variable is
set, empty or not — and the run proceeds to network activity, its first
request being the authentication call. -/
theorem claim_C6_empty_string_passes (cfg : Config) (w : World) (remove : Bool)
    (u n p s c : String)
    (h1 : cfg.portainer_url = some u)
    (h2 : cfg.portainer_username = some n)
    (h3 : cfg.portainer_password = some p)
    (h4 : cfg.stack_name = some s)
    (h5 : cfg.compose_content = some c) :
    validate_environment cfg remove = none ∧
    (deploy cfg [] w).1.head? =
      some (Req.auth cfg.portainer_username cfg.portainer_password) := by
  have hv : ∀ r : Bool, validate_environment cfg r = none := by
    intro r
    cases r <;>
      simp [validate_environment, requiredParams, parameters, getenv,
        List.erase, h1, h2, h3, h4, h5]
  refine ⟨hv remove, ?_⟩
  simp only [deploy, parseArgs, hv false]
  repeat' split
  all_goals simp_all

/-- Witness for the amended C6 at the all-empty-strings configuration. -/
theorem claim_C6_witness :
    validate_environment ⟨some "", some "", some "", some "", some ""⟩ false = none ∧
    (deploy ⟨some "", some "", some "", some "", some ""⟩ [] wHappy).1.head? =
      some (Req.auth (some "") (some "")) :=
  claim_C6_empty_string_passes ⟨some "", some "", some "", some "", some ""⟩
    wHappy false "" "" "" "" "" rfl rfl rfl rfl rfl

/-- Claim C10: once the environment-listing call succeeds, the endpoint
identifier is the first element of the returned list — the third request of
the run is the swarm-info call for exactly that element — and on an empty
list the run ends in the out-of-range indexing fault, which lies outside the
defined error taxonomy (usage, configuration, transport, logical), with no
further request issued. -/
theorem claim_C10_first_endpoint (cfg : Config) (w : World)
    (argv : List String) (remove : Bool)
    (hargs : parseArgs argv = some remove)
    (hval : validate_environment cfg remove = none)
    (hauth : w.authResp.ok = true)
    (hend : w.endpointsResp.ok = true) :
    (w.endpoints = [] →
      deploy cfg argv w =
        ([Req.auth cfg.portainer_username cfg.portainer_password,
          Req.listEndpoints w.jwt], Outcome.indexFault) ∧
      inErrorTaxonomy Outcome.indexFault = false) ∧
    (∀ eid rest, w.endpoints = eid :: rest →
      (deploy cfg argv w).1.take 3 =
        [Req.auth cfg.portainer_username cfg.portainer_password,
         Req.listEndpoints w.jwt, Req.swarmInfo w.jwt eid]) := by
  constructor
  · intro h0
    refine ⟨?_, rfl⟩
    simp [deploy, hargs, hval, hauth, hend, h0]
  · intro eid rest heps
    simp only [deploy, hargs, hval, hauth, hend, heps]
    repeat' split
    all_goals simp_all

/-- Witness for C10 at a control plane with an empty environment list. -/
theorem claim_C10_witness :
    deploy cfgGood [] wNoEndpoints =
      ([Req.auth (some "admin") (some "pw"), Req.listEndpoints "tok"],
       Outcome.indexFault) ∧
    inErrorTaxonomy Outcome.indexFault = false := by
  have h := claim_C10_first_endpoint cfgGood wNoEndpoints [] false
    rfl rfl rfl rfl
  exact (h.1 rfl)

/-- Claim C8: on every configuration, argument vector and control plane, the
run issues at most one mutating request (create, update or delete), and every
error is terminal: every request except possibly the last one received a
success response, so no request of any kind follows a failed call. -/
theorem claim_C8_single_mutation_terminal_errors (cfg : Config)
    (argv : List String) (w : World) :
    (deploy cfg argv w).1.countP isMutatingB ≤ 1 ∧
    (deploy cfg argv w).1.dropLast.all (fun r => (respOf w r).ok) = true := by
  unfold deploy
  repeat' split
  all_goals simp_all [isMutatingB, respOf]

/-- Claim C9: if any request of the run received a non-success response, that
request is the last one of the trace — nothing is retried and nothing
follows it — and the run terminates as a transport error carrying that
response's status and body, with a non-zero exit code. -/
theorem claim_C9_http_error_terminal (cfg : Config) (argv : List String)
    (w : World) (r : Req)
    (hmem : r ∈ (deploy cfg argv w).1)
    (hfail : (respOf w r).ok = false) :
    (deploy cfg argv w).1.getLast? = some r ∧
    (deploy cfg argv w).2 =
      Outcome.httpError (respOf w r).status (respOf w r).body ∧
    exitCode (deploy cfg argv w).2 = 1 := by
  revert hmem
  unfold deploy
  repeat' split
  all_goals intro hmem
  all_goals fin_cases hmem <;> simp_all [respOf, exitCode]

/-- Witness for C9 at a failing authentication call. -/
theorem claim_C9_witness :
    (deploy cfgGood [] wAuthFail).1.getLast? =
      some (Req.auth (some "admin") (some "pw")) ∧
    (deploy cfgGood [] wAuthFail).2 = Outcome.httpError 500 "boom" ∧
    exitCode (deploy cfgGood [] wAuthFail).2 = 1 := by
  have h := claim_C9_http_error_terminal cfgGood [] wAuthFail
    (Req.auth (some "admin") (some "pw")) (by decide) (by decide)
  exact h
